import Mathlib

/-!
# Panel window controller of the status bar (`src/statusbar.cpp`)

A shallow embedding of `StatusBar`, the `QQuickView` subclass that places the
status bar on the primary display and reserves screen space for it.

* The corners of a `QRect` are kept as integers of `Int`.  The `int` values that
  `updateViewStruts` computes for the strut are reduced to the 32-bit two's
  complement range with `wrapInt32`; since that reduction commutes with `+` and
  `-`, reducing once at the end gives the value a 32-bit machine computes
  step by step.
* The controller is a state record; every member function is a state
  transformer.  Calls into Qt / KWindowSystem / KWayland and emitted signals
  are appended to `log`, in program order.
* What the platform answers (display geometries, whether a Wayland connection
  or a shell object could be obtained, the launchpad flag) is an explicit input.
* `HAVE_KWAYLAND` (preprocessor) and the session type reported by
  `KWindowSystem` are the two fields of `Build`.
-/

/-! ## Machine integers -/

/-- The value of a 32-bit `int` that holds `n` modulo `2^32` (two's complement). -/
def wrapInt32 (n : Int) : Int := (n + 2147483648) % 4294967296 - 2147483648

/-- Qt `QPoint`. -/
structure QPoint where
  xp : Int
  yp : Int
  deriving DecidableEq

/-- Qt `QSize`. -/
structure QSize where
  wd : Int
  ht : Int
  deriving DecidableEq

/-- Qt `QRect`: stored as the two corners `(x1, y1)` and `(x2, y2)`, both inclusive. -/
structure QRect where
  x1 : Int
  y1 : Int
  x2 : Int
  y2 : Int
  deriving DecidableEq

namespace QRect

/-- Default constructor `QRect()`: the null rectangle. -/
def null : QRect := ⟨0, 0, -1, -1⟩

/-- Constructor `QRect(int left, int top, int width, int height)`. -/
def fromXYWH (left top width height : Int) : QRect :=
  ⟨left, top, left + width - 1, top + height - 1⟩

/-- Constructor `QRect(const QPoint &topLeft, const QSize &size)`. -/
def fromPointSize (p : QPoint) (sz : QSize) : QRect :=
  ⟨p.xp, p.yp, p.xp + sz.wd - 1, p.yp + sz.ht - 1⟩

/-- Accessor `QRect::x()`. -/
def x (r : QRect) : Int := r.x1

/-- Accessor `QRect::y()`. -/
def y (r : QRect) : Int := r.y1

/-- Accessor `QRect::top()`. -/
def top (r : QRect) : Int := r.y1

/-- Accessor `QRect::width()`. -/
def width (r : QRect) : Int := r.x2 - r.x1 + 1

/-- Accessor `QRect::height()`. -/
def height (r : QRect) : Int := r.y2 - r.y1 + 1

/-- Accessor `QRect::topLeft()`. -/
def topLeft (r : QRect) : QPoint := ⟨r.x1, r.y1⟩

end QRect

/-! ## Platform types -/

/-- Session type reported by `KWindowSystem::platform()`. -/
inductive Platform
  | Unknown
  | X11
  | Wayland
  deriving DecidableEq

/-- Build and session parameters: the `HAVE_KWAYLAND` preprocessor switch and the
session type. Neither changes while the program runs. -/
structure Build where
  HAVE_KWAYLAND : Bool
  platform : Platform
  deriving DecidableEq

/-- Query `KWindowSystem::isPlatformWayland()`. -/
def Build.isPlatformWayland (cfg : Build) : Bool := cfg.platform = Platform.Wayland

/-- Query `KWindowSystem::isPlatformX11()`. -/
def Build.isPlatformX11 (cfg : Build) : Bool := cfg.platform = Platform.X11

/-- KWindowSystem `NETExtendedStrut`, the twelve fields passed to `setExtendedStrut`. -/
structure NETExtendedStrut where
  left_width : Int
  left_start : Int
  left_end : Int
  right_width : Int
  right_start : Int
  right_end : Int
  top_width : Int
  top_start : Int
  top_end : Int
  bottom_width : Int
  bottom_start : Int
  bottom_end : Int
  deriving DecidableEq

/-- Default constructor `NETExtendedStrut()`: the library initialises every field to 0. -/
def NETExtendedStrut.default : NETExtendedStrut := ⟨0, 0, 0, 0, 0, 0, 0, 0, 0, 0, 0, 0⟩

/-- The two `NET::State` values the controller requests. -/
inductive NETState
  | KeepAbove
  | KeepBelow
  deriving DecidableEq

/-- KWayland `PlasmaShellSurface::Role` (only `Panel` is used). -/
inductive Role
  | Panel
  deriving DecidableEq

/-- KWayland `PlasmaShellSurface::PanelBehavior` (only `WindowsGoBelow` is used). -/
inductive PanelBehavior
  | WindowsGoBelow
  deriving DecidableEq

/-- The panel-role object behind `m_plasmaShellSurface`: for each attribute, the last
value this program has set on it (`none`: never set). -/
structure PlasmaShellSurface where
  role : Option Role
  panelBehavior : Option PanelBehavior
  skipTaskbar : Option Bool
  skipSwitcher : Option Bool
  panelTakesFocus : Option Bool
  position : Option QPoint
  deriving DecidableEq

/-- A panel object as `PlasmaShell::createSurface` hands it out: nothing set yet. -/
def PlasmaShellSurface.fresh : PlasmaShellSurface := ⟨none, none, none, none, none, none⟩

/-! ## Signals, slots and connections -/

/-- Displays are identified by a number (the `QScreen *`). -/
abbrev ScreenId := Nat

/-- The objects that take part in signal connections. -/
inductive QObjectRef
  | statusBar
  | screen (id : ScreenId)
  | activity
  | guiApp
  | registry
  deriving DecidableEq

/-- The signals the controller subscribes to. -/
inductive Signal
  | virtualGeometryChanged
  | geometryChanged
  | launchPadChanged
  | primaryScreenChanged
  | plasmaShellAnnounced
  deriving DecidableEq

/-- The controller's slots; `announcedLambda` is the lambda connected in
`setupWaylandPanelSurface`. -/
inductive Slot
  | updateGeometry
  | initState
  | onPrimaryScreenChanged
  | announcedLambda
  deriving DecidableEq

/-- One entry of Qt's connection table. -/
structure Connection where
  sender : QObjectRef
  signal : Signal
  receiver : QObjectRef
  slot : Slot
  deriving DecidableEq

/-- The signals the controller itself emits. -/
inductive OwnSignal
  | screenRectChanged
  | twentyFourTimeChanged
  deriving DecidableEq

/-- The warnings of `setupWaylandPanelSurface`, one per `qWarning()` line. -/
inductive Warning
  | noConnection
  | bindPlasmaShellFailed
  | noWaylandSurface
  | createShellSurfaceFailed
  deriving DecidableEq

/-- An externally visible action of the controller, in the order the code performs it. -/
inductive Effect
  | emit (sig : OwnSignal)
  | setFlags
  | setColor
  | setOnDesktop
  | setType
  | setSource
  | setResizeMode
  | setScreen (scr : ScreenId)
  | setVisible (enabled : Bool)
  | setGeometry (r : QRect)
  | setExtendedStrut (st : NETExtendedStrut)
  | enableBlurBehind (enabled : Bool)
  | setState (st : NETState)
  | warning (w : Warning)
  | registrySetup
  | setRole (r : Role)
  | setPanelBehavior (b : PanelBehavior)
  | setSkipTaskbar (enabled : Bool)
  | setSkipSwitcher (enabled : Bool)
  | setPanelTakesFocus (enabled : Bool)
  | setPosition (p : QPoint)
  deriving DecidableEq

namespace Effect

/-- Is this a `QWindow::setGeometry` call? -/
def isSetGeometry : Effect → Bool
  | setGeometry _ => true
  | _ => false

/-- Is this a `KWindowSystem::setExtendedStrut` call? -/
def isStrut : Effect → Bool
  | setExtendedStrut _ => true
  | _ => false

/-- Is this a call on the panel object (`m_plasmaShellSurface->...`)? -/
def isPanelCall : Effect → Bool
  | setRole _ => true
  | setPanelBehavior _ => true
  | setSkipTaskbar _ => true
  | setSkipSwitcher _ => true
  | setPanelTakesFocus _ => true
  | setPosition _ => true
  | _ => false

end Effect

/-! ## Controller state -/

/-- What the platform reports about the displays while a slot runs. -/
structure Displays where
  geometry : ScreenId → QRect
  virtualSize : ScreenId → QSize

/-- State of the controller and of the window it owns.

* `m_screenRect`, `m_twentyFourTime`, `m_plasmaShellSurface`: the data members;
* `screen`, `geometry`: what `QWindow::screen()` / `QWindow::geometry()` return, that is
  the value last passed to `setScreen` / `setGeometry`;
* `strut`: the extended strut the window manager holds for the window
  (`setExtendedStrut` overwrites the window's strut property);
* `blurBehind`: whether blur-behind was enabled;
* `connections`: Qt's connection table, oldest first;
* `log`: every external call and emitted signal so far. -/
structure StatusBar where
  m_screenRect : QRect
  m_twentyFourTime : Bool
  m_plasmaShellSurface : Option PlasmaShellSurface
  screen : ScreenId
  geometry : QRect
  strut : Option NETExtendedStrut
  blurBehind : Bool
  connections : List Connection
  log : List Effect
  deriving DecidableEq

namespace StatusBar

/-- Append one effect to the log. -/
def record (e : Effect) (s : StatusBar) : StatusBar := { s with log := s.log ++ [e] }

/-- The effects `s2` has logged beyond those of the earlier state `s1`. -/
def effectsSince (s1 s2 : StatusBar) : List Effect := s2.log.drop s1.log.length

/-- Getter `StatusBar::screenRect()`. -/
def screenRect (s : StatusBar) : QRect := s.m_screenRect

/-- Getter `StatusBar::twentyFourTime()`. -/
def twentyFourTime (s : StatusBar) : Bool := s.m_twentyFourTime

/-- Setter `StatusBar::setTwentyFourTime(bool t)`. -/
def setTwentyFourTime (t : Bool) (s : StatusBar) : StatusBar :=
  if s.m_twentyFourTime != t then
    record (.emit .twentyFourTimeChanged) { s with m_twentyFourTime := t }
  else s

/-- Qt `QWindow::setGeometry`: the window takes the rectangle. -/
def setGeometry (r : QRect) (s : StatusBar) : StatusBar :=
  record (.setGeometry r) { s with geometry := r }

/-- Qt `QWindow::setScreen`. -/
def setScreen (scr : ScreenId) (s : StatusBar) : StatusBar :=
  record (.setScreen scr) { s with screen := scr }

/-- Qt `QObject::connect(sender, signal, this, slot)`: appends a connection; Qt does not
check for duplicates (no `Qt::UniqueConnection` is passed). -/
def connect (sender : QObjectRef) (sig : Signal) (slot : Slot) (s : StatusBar) : StatusBar :=
  { s with connections := s.connections ++ [⟨sender, sig, .statusBar, slot⟩] }

/-- Qt member `bool QObject::disconnect(const QObject *receiver, const char *method = nullptr) const`,
called on the controller: it is `disconnect(this, nullptr, receiver, method)`, which removes
the connections whose SENDER is the controller and whose receiver is `receiver`. This is the
only overload of `disconnect` that accepts a single `QScreen *` argument. -/
def disconnect (receiver : QObjectRef) (s : StatusBar) : StatusBar :=
  { s with connections :=
      s.connections.filter (fun c => !(c.sender = QObjectRef.statusBar ∧ c.receiver = receiver)) }

/-- A setter call `m_plasmaShellSurface->...` on the panel object the member points to. -/
def panelCall (e : Effect) (f : PlasmaShellSurface → PlasmaShellSurface) (s : StatusBar) :
    StatusBar :=
  record e { s with m_plasmaShellSurface := s.m_plasmaShellSurface.map f }

/-- Member `StatusBar::updateWaylandPanelSurface()`. -/
def updateWaylandPanelSurface (cfg : Build) (s : StatusBar) : StatusBar :=
  if cfg.HAVE_KWAYLAND then
    match s.m_plasmaShellSurface with
    | none => s
    | some _ =>
      let s1 := panelCall (.setPanelBehavior .WindowsGoBelow)
        (fun p => { p with panelBehavior := some .WindowsGoBelow }) s
      panelCall (.setPosition s1.geometry.topLeft)
        (fun p => { p with position := some s1.geometry.topLeft }) s1
  else s

/-- Member `StatusBar::updateViewStruts()`. -/
def updateViewStruts (cfg : Build) (env : Displays) (s : StatusBar) : StatusBar :=
  if cfg.isPlatformWayland then
    if cfg.HAVE_KWAYLAND then updateWaylandPanelSurface cfg s else s
  else
    let _wholeScreen := QRect.fromPointSize ⟨0, 0⟩ (env.virtualSize s.screen)
    let rect := s.geometry
    let topOffset := (env.geometry s.screen).top
    let strut : NETExtendedStrut :=
      { NETExtendedStrut.default with
        top_width := wrapInt32 (rect.height + topOffset - 1)
        top_start := rect.x
        top_end := wrapInt32 (rect.x + rect.width - 1) }
    record (.setExtendedStrut strut) { s with strut := some strut }

/-- Member `StatusBar::updateGeometry()`. -/
def updateGeometry (cfg : Build) (env : Displays) (s : StatusBar) : StatusBar :=
  let rect := env.geometry s.screen
  let s1 :=
    if s.m_screenRect != rect then
      record (.emit .screenRectChanged) { s with m_screenRect := rect }
    else s
  let windowRect := QRect.fromXYWH rect.x rect.y rect.width 25
  let s2 := setGeometry windowRect s1
  let s3 := updateViewStruts cfg env s2
  if cfg.isPlatformX11 then
    record (.enableBlurBehind true) { s3 with blurBehind := true }
  else s3

/-- Member `StatusBar::initState()`; `launchPad` is what `m_acticity->launchPad()` returns. -/
def initState (launchPad : Bool) (s : StatusBar) : StatusBar :=
  record (.setState (if launchPad then .KeepBelow else .KeepAbove)) s

/-- Member `StatusBar::onPrimaryScreenChanged(QScreen *screen)`. -/
def onPrimaryScreenChanged (cfg : Build) (env : Displays) (scr : ScreenId) (s : StatusBar) :
    StatusBar :=
  let s1 := disconnect (.screen s.screen) s
  let s2 := setScreen scr s1
  let s3 := updateGeometry cfg env s2
  let s4 := connect (.screen scr) .virtualGeometryChanged .updateGeometry s3
  connect (.screen scr) .geometryChanged .updateGeometry s4

/-- What the KWayland factory calls of the announcement callback return: `true` for an
object, `false` for a null pointer. -/
structure BindOutcome where
  plasmaShell : Bool
  surface : Bool
  shellSurface : Bool
  deriving DecidableEq

/-- Did every binding step of the callback succeed? -/
def BindOutcome.ok (o : BindOutcome) : Bool := o.plasmaShell && o.surface && o.shellSurface

/-- The lambda connected to `Registry::plasmaShellAnnounced` in
`setupWaylandPanelSurface` (it exists only when `HAVE_KWAYLAND` is set). -/
def announcedLambda (cfg : Build) (o : BindOutcome) (s : StatusBar) : StatusBar :=
  if !o.plasmaShell then record (.warning .bindPlasmaShellFailed) s
  else if !o.surface then record (.warning .noWaylandSurface) s
  else
    let s1 : StatusBar :=
      { s with m_plasmaShellSurface :=
          if o.shellSurface then some PlasmaShellSurface.fresh else none }
    match s1.m_plasmaShellSurface with
    | none => record (.warning .createShellSurfaceFailed) s1
    | some _ =>
      let s2 := panelCall (.setRole .Panel) (fun p => { p with role := some .Panel }) s1
      let s3 := panelCall (.setPanelBehavior .WindowsGoBelow)
        (fun p => { p with panelBehavior := some .WindowsGoBelow }) s2
      let s4 := panelCall (.setSkipTaskbar true) (fun p => { p with skipTaskbar := some true }) s3
      let s5 := panelCall (.setSkipSwitcher true)
        (fun p => { p with skipSwitcher := some true }) s4
      let s6 := panelCall (.setPanelTakesFocus false)
        (fun p => { p with panelTakesFocus := some false }) s5
      updateWaylandPanelSurface cfg s6

/-- Member `StatusBar::setupWaylandPanelSurface()`; `connection` tells whether
`ConnectionThread::fromApplication` returned an object. -/
def setupWaylandPanelSurface (cfg : Build) (connection : Bool) (s : StatusBar) : StatusBar :=
  if cfg.HAVE_KWAYLAND then
    if !cfg.isPlatformWayland then s
    else if !connection then record (.warning .noConnection) s
    else
      record .registrySetup (connect .registry .plasmaShellAnnounced .announcedLambda s)
  else s

/-- Constructor `StatusBar::StatusBar(QQuickView *parent)`.

* `twentyFour`: the stored setting `twentyFour`, when present;
* `primary`: `qApp->primaryScreen()`;
* `connection`: whether a Wayland connection is available;
* `launchPad`: the launchpad flag at construction. -/
def construct (cfg : Build) (env : Displays) (twentyFour : Option Bool) (primary : ScreenId)
    (connection : Bool) (launchPad : Bool) : StatusBar :=
  let s0 : StatusBar :=
    { m_screenRect := QRect.null
      m_twentyFourTime := twentyFour.getD false
      m_plasmaShellSurface := none
      screen := primary
      geometry := QRect.null
      strut := none
      blurBehind := false
      connections := []
      log := [] }
  let s1 := record .setColor (record .setFlags s0)
  let s2 := if !cfg.isPlatformWayland then record .setType (record .setOnDesktop s1) else s1
  let s3 := record .setResizeMode (record .setSource s2)
  let s4 := setScreen primary s3
  let s5 := setupWaylandPanelSurface cfg connection s4
  let s6 := updateGeometry cfg env s5
  let s7 := record (.setVisible true) s6
  let s8 := initState launchPad s7
  let s9 := connect .activity .launchPadChanged .initState s8
  let s10 := connect (.screen s9.screen) .virtualGeometryChanged .updateGeometry s9
  let s11 := connect (.screen s10.screen) .geometryChanged .updateGeometry s10
  connect .guiApp .primaryScreenChanged .onPrimaryScreenChanged s11

/-! ## Event loop -/

/-- One signal emission reaching the event loop, with the platform facts the slots read
while they run. -/
structure Emission where
  sender : QObjectRef
  signal : Signal
  displays : Displays
  launchPad : Bool
  screenArg : ScreenId
  bind : BindOutcome

/-- What the event loop can deliver to the controller. -/
inductive Event
  | emission (e : Emission)
  | callSetTwentyFourTime (t : Bool)

/-- The controller slots connected to `sender`'s signal `sig`, in connection order. -/
def connectedSlots (s : StatusBar) (sender : QObjectRef) (sig : Signal) : List Slot :=
  (s.connections.filter
    (fun c => c.sender = sender ∧ c.signal = sig ∧ c.receiver = QObjectRef.statusBar)).map
    (fun c => c.slot)

/-- Run one slot of the controller for the emission `e`. -/
def runSlot (cfg : Build) (e : Emission) (s : StatusBar) : Slot → StatusBar
  | .updateGeometry => updateGeometry cfg e.displays s
  | .initState => initState e.launchPad s
  | .onPrimaryScreenChanged => onPrimaryScreenChanged cfg e.displays e.screenArg s
  | .announcedLambda => announcedLambda cfg e.bind s

/-- Deliver one event: an emission runs every connected slot once per connection. -/
def handle (cfg : Build) (s : StatusBar) : Event → StatusBar
  | .emission e => (connectedSlots s e.sender e.signal).foldl (runSlot cfg e) s
  | .callSetTwentyFourTime t => setTwentyFourTime t s

/-- Deliver a sequence of events, first to last. -/
def run (cfg : Build) (s : StatusBar) (evs : List Event) : StatusBar :=
  evs.foldl (handle cfg) s

/-- Does delivering `ev` in state `s` run the announcement callback? -/
def callbackRuns (s : StatusBar) : Event → Bool
  | .emission e => (connectedSlots s e.sender e.signal).contains Slot.announcedLambda
  | .callSetTwentyFourTime _ => false

/-- The announcement callback runs at no point while `evs` is delivered from `s`. -/
def callbackNeverRuns (cfg : Build) (s : StatusBar) : List Event → Bool
  | [] => true
  | ev :: evs => !callbackRuns s ev && callbackNeverRuns cfg (handle cfg s ev) evs

/-- Does the event announce the shell with every binding step succeeding? -/
def Event.announcesWithSuccess : Event → Bool
  | .emission e => decide (e.signal = Signal.plasmaShellAnnounced) && e.bind.ok
  | .callSetTwentyFourTime _ => false

/-- No panel object exists and no call on a panel object has ever been made. -/
def panelUnset (s : StatusBar) : Bool :=
  s.m_plasmaShellSurface.isNone && s.log.all (fun e => !e.isPanelCall)

/-- The window has no strut and no extended strut has ever been submitted. -/
def strutFree (s : StatusBar) : Bool :=
  s.strut.isNone && s.log.all (fun e => !e.isStrut)

/-- The announcement callback is connected to nothing but `plasmaShellAnnounced`. -/
def callbackOnlyOnAnnounce (s : StatusBar) : Bool :=
  s.connections.all (fun c =>
    decide (c.slot = Slot.announcedLambda → c.signal = Signal.plasmaShellAnnounced))

/-- The announcement callback is not connected at all. -/
def callbackUnconnected (s : StatusBar) : Bool :=
  s.connections.all (fun c => decide (c.slot ≠ Slot.announcedLambda))

end StatusBar

/-- A display layout with a single geometry for every display. -/
def Displays.const (g : QRect) (v : QSize) : Displays := ⟨fun _ => g, fun _ => v⟩

/-- The legacy session used in the worked examples. -/
def exampleX11 : Build := ⟨true, .X11⟩

/-- The compositor session used in the worked examples. -/
def exampleWayland : Build := ⟨true, .Wayland⟩

/-- One full-HD display at the origin, for the worked examples. -/
def exampleDisplays : Displays := Displays.const (QRect.fromXYWH 0 0 1920 1080) ⟨1920, 1080⟩

/-- The controller as constructed on the legacy example session. -/
def exampleBar : StatusBar := StatusBar.construct exampleX11 exampleDisplays none 0 false false

/-- The controller on the compositor example session, once the shell has been announced and
every binding step has succeeded. -/
def examplePanelBar : StatusBar :=
  StatusBar.run exampleWayland
    (StatusBar.construct exampleWayland exampleDisplays none 0 true false)
    [.emission ⟨.registry, .plasmaShellAnnounced, exampleDisplays, false, 0, ⟨true, true, true⟩⟩]

/-- An emission of the example session: `sender` emits `sig`; the announcement it may carry
has the binding outcome `o`, and a primary-display change names display `scr`. -/
def exampleEmission (sender : QObjectRef) (sig : Signal) (scr : ScreenId)
    (o : StatusBar.BindOutcome) :
    StatusBar.Event :=
  .emission ⟨sender, sig, exampleDisplays, true, scr, o⟩

/-- A run without any shell announcement: a geometry change, a change of the primary display
to display 1, a launchpad change and a time-format change. -/
def exampleQuietEvents : List StatusBar.Event :=
  [exampleEmission (.screen 0) .geometryChanged 0 ⟨true, true, true⟩,
   exampleEmission .guiApp .primaryScreenChanged 1 ⟨true, true, true⟩,
   exampleEmission .activity .launchPadChanged 0 ⟨true, true, true⟩,
   .callSetTwentyFourTime true]

/-- A run in which the shell is announced twice and a binding step fails each time (first
the panel object, then the protocol surface), with a geometry change in between. -/
def exampleFailingEvents : List StatusBar.Event :=
  [exampleEmission .registry .plasmaShellAnnounced 0 ⟨true, true, false⟩,
   exampleEmission (.screen 0) .geometryChanged 0 ⟨true, true, true⟩,
   exampleEmission .registry .plasmaShellAnnounced 0 ⟨true, false, true⟩]

/-! ## Basic facts about the log -/

namespace StatusBar

theorem effectsSince_append (s1 s2 : StatusBar) (l : List Effect) (h : s2.log = s1.log ++ l) :
    effectsSince s1 s2 = l := by
  simp [effectsSince, h]

theorem updateWaylandPanelSurface_log (cfg : Build) (s : StatusBar) :
    (updateWaylandPanelSurface cfg s).log = s.log ++
      (if cfg.HAVE_KWAYLAND = true ∧ s.m_plasmaShellSurface.isSome = true then
        [.setPanelBehavior .WindowsGoBelow, .setPosition s.geometry.topLeft]
      else []) := by
  unfold updateWaylandPanelSurface
  cases hk : cfg.HAVE_KWAYLAND <;> cases hp : s.m_plasmaShellSurface <;>
    simp [panelCall, record]

theorem updateGeometry_screenRect (cfg : Build) (env : Displays) (s : StatusBar) :
    (updateGeometry cfg env s).m_screenRect = env.geometry s.screen := by
  rcases cfg with ⟨hk, pl⟩
  cases hk <;> cases pl <;> cases hp : s.m_plasmaShellSurface <;>
    by_cases hr : s.m_screenRect = env.geometry s.screen <;>
    simp [updateGeometry, updateViewStruts, updateWaylandPanelSurface, panelCall, setGeometry,
      record, Build.isPlatformWayland, Build.isPlatformX11, hp, hr]

theorem updateGeometry_geometry (cfg : Build) (env : Displays) (s : StatusBar) :
    (updateGeometry cfg env s).geometry
      = QRect.fromXYWH (env.geometry s.screen).x (env.geometry s.screen).y
          (env.geometry s.screen).width 25 := by
  rcases cfg with ⟨hk, pl⟩
  cases hk <;> cases pl <;> cases hp : s.m_plasmaShellSurface <;>
    by_cases hr : s.m_screenRect = env.geometry s.screen <;>
    simp [updateGeometry, updateViewStruts, updateWaylandPanelSurface, panelCall, setGeometry,
      record, Build.isPlatformWayland, Build.isPlatformX11, hp, hr]

theorem updateGeometry_screen (cfg : Build) (env : Displays) (s : StatusBar) :
    (updateGeometry cfg env s).screen = s.screen := by
  rcases cfg with ⟨hk, pl⟩
  cases hk <;> cases pl <;> cases hp : s.m_plasmaShellSurface <;>
    by_cases hr : s.m_screenRect = env.geometry s.screen <;>
    simp [updateGeometry, updateViewStruts, updateWaylandPanelSurface, panelCall, setGeometry,
      record, Build.isPlatformWayland, Build.isPlatformX11, hp, hr]

theorem updateGeometry_connections (cfg : Build) (env : Displays) (s : StatusBar) :
    (updateGeometry cfg env s).connections = s.connections := by
  rcases cfg with ⟨hk, pl⟩
  cases hk <;> cases pl <;> cases hp : s.m_plasmaShellSurface <;>
    by_cases hr : s.m_screenRect = env.geometry s.screen <;>
    simp [updateGeometry, updateViewStruts, updateWaylandPanelSurface, panelCall, setGeometry,
      record, Build.isPlatformWayland, Build.isPlatformX11, hp, hr]

/-- The calls and signals of one `updateGeometry`, in order: the change signal (only when
the stored rectangle differs), `setGeometry`, the reservation, the blur request. -/
theorem updateGeometry_log (cfg : Build) (env : Displays) (s : StatusBar) :
    (updateGeometry cfg env s).log = s.log ++
      ((if s.m_screenRect = env.geometry s.screen then []
        else [Effect.emit .screenRectChanged]) ++
       [Effect.setGeometry (QRect.fromXYWH (env.geometry s.screen).x (env.geometry s.screen).y
          (env.geometry s.screen).width 25)] ++
       (if cfg.isPlatformWayland = true then
          (if cfg.HAVE_KWAYLAND = true ∧ s.m_plasmaShellSurface.isSome = true then
            [Effect.setPanelBehavior .WindowsGoBelow,
             Effect.setPosition ⟨(env.geometry s.screen).x, (env.geometry s.screen).y⟩]
           else [])
        else
          [Effect.setExtendedStrut ⟨0, 0, 0, 0, 0, 0,
            wrapInt32 (25 + (env.geometry s.screen).top - 1),
            (env.geometry s.screen).x,
            wrapInt32 ((env.geometry s.screen).x + (env.geometry s.screen).width - 1),
            0, 0, 0⟩]) ++
       (if cfg.isPlatformX11 = true then [Effect.enableBlurBehind true] else [])) := by
  rcases cfg with ⟨hk, pl⟩
  cases hk <;> cases pl <;> cases hp : s.m_plasmaShellSurface <;>
    by_cases hr : s.m_screenRect = env.geometry s.screen <;>
    simp [updateGeometry, updateViewStruts, updateWaylandPanelSurface, panelCall, setGeometry,
      record, Build.isPlatformWayland, Build.isPlatformX11, hp, hr, NETExtendedStrut.default,
      QRect.fromXYWH, QRect.x, QRect.y, QRect.width, QRect.height, QRect.top, QRect.topLeft,
      wrapInt32] <;>
    omega

/-- The panel object after `updateGeometry`: on a Wayland session built with KWayland its
behavior and position are set again, otherwise the member is untouched. -/
theorem updateGeometry_panel (cfg : Build) (env : Displays) (s : StatusBar) :
    (updateGeometry cfg env s).m_plasmaShellSurface
      = if cfg.isPlatformWayland = true ∧ cfg.HAVE_KWAYLAND = true then
          s.m_plasmaShellSurface.map (fun p =>
            { p with panelBehavior := some .WindowsGoBelow
                     position := some ⟨(env.geometry s.screen).x, (env.geometry s.screen).y⟩ })
        else s.m_plasmaShellSurface := by
  rcases cfg with ⟨hk, pl⟩
  cases hk <;> cases pl <;> cases hp : s.m_plasmaShellSurface <;>
    by_cases hr : s.m_screenRect = env.geometry s.screen <;>
    simp [updateGeometry, updateViewStruts, updateWaylandPanelSurface, panelCall, setGeometry,
      record, Build.isPlatformWayland, Build.isPlatformX11, hp, hr,
      QRect.fromXYWH, QRect.x, QRect.y, QRect.topLeft]

/-- The window strut after `updateGeometry`: replaced on a session that is not Wayland,
untouched on Wayland. -/
theorem updateGeometry_strut (cfg : Build) (env : Displays) (s : StatusBar) :
    (updateGeometry cfg env s).strut
      = if cfg.isPlatformWayland = true then s.strut
        else some ⟨0, 0, 0, 0, 0, 0,
            wrapInt32 (25 + (env.geometry s.screen).top - 1),
            (env.geometry s.screen).x,
            wrapInt32 ((env.geometry s.screen).x + (env.geometry s.screen).width - 1),
            0, 0, 0⟩ := by
  rcases cfg with ⟨hk, pl⟩
  cases hk <;> cases pl <;> cases hp : s.m_plasmaShellSurface <;>
    by_cases hr : s.m_screenRect = env.geometry s.screen <;>
    simp [updateGeometry, updateViewStruts, updateWaylandPanelSurface, panelCall, setGeometry,
      record, Build.isPlatformWayland, Build.isPlatformX11, hp, hr, NETExtendedStrut.default,
      QRect.fromXYWH, QRect.x, QRect.y, QRect.width, QRect.height, QRect.top, QRect.topLeft,
      wrapInt32] <;>
    omega

theorem updateGeometry_blurBehind (cfg : Build) (env : Displays) (s : StatusBar) :
    (updateGeometry cfg env s).blurBehind
      = if cfg.isPlatformX11 = true then true else s.blurBehind := by
  rcases cfg with ⟨hk, pl⟩
  cases hk <;> cases pl <;> cases hp : s.m_plasmaShellSurface <;>
    by_cases hr : s.m_screenRect = env.geometry s.screen <;>
    simp [updateGeometry, updateViewStruts, updateWaylandPanelSurface, panelCall, setGeometry,
      record, Build.isPlatformWayland, Build.isPlatformX11, hp, hr]

theorem updateGeometry_twentyFourTime (cfg : Build) (env : Displays) (s : StatusBar) :
    (updateGeometry cfg env s).m_twentyFourTime = s.m_twentyFourTime := by
  rcases cfg with ⟨hk, pl⟩
  cases hk <;> cases pl <;> cases hp : s.m_plasmaShellSurface <;>
    by_cases hr : s.m_screenRect = env.geometry s.screen <;>
    simp [updateGeometry, updateViewStruts, updateWaylandPanelSurface, panelCall, setGeometry,
      record, Build.isPlatformWayland, Build.isPlatformX11, hp, hr]

/-- Two controller states with the same components are equal. -/
theorem ext_fields (a b : StatusBar)
    (h1 : a.m_screenRect = b.m_screenRect) (h2 : a.m_twentyFourTime = b.m_twentyFourTime)
    (h3 : a.m_plasmaShellSurface = b.m_plasmaShellSurface) (h4 : a.screen = b.screen)
    (h5 : a.geometry = b.geometry) (h6 : a.strut = b.strut)
    (h7 : a.blurBehind = b.blurBehind) (h8 : a.connections = b.connections)
    (h9 : a.log = b.log) : a = b := by
  cases a; cases b; simp_all

/-! ## Invariants of the event loop -/

theorem panelUnset_iff (s : StatusBar) :
    panelUnset s = true ↔
      s.m_plasmaShellSurface = none ∧ ∀ e ∈ s.log, e.isPanelCall = false := by
  simp [panelUnset]

theorem strutFree_iff (s : StatusBar) :
    strutFree s = true ↔ s.strut = none ∧ ∀ e ∈ s.log, e.isStrut = false := by
  simp [strutFree]

theorem panelUnset_updateGeometry (cfg : Build) (env : Displays) (s : StatusBar)
    (h : panelUnset s = true) : panelUnset (updateGeometry cfg env s) = true := by
  simp only [panelUnset, Bool.and_eq_true, Option.isNone_iff_eq_none] at h ⊢
  obtain ⟨hp, hl⟩ := h
  refine ⟨by simp [updateGeometry_panel, hp], ?_⟩
  rw [updateGeometry_log, List.all_append, hl]
  by_cases h1 : s.m_screenRect = env.geometry s.screen <;>
    by_cases h2 : cfg.isPlatformWayland = true <;>
    by_cases h4 : cfg.isPlatformX11 = true <;>
    simp [h1, h2, h4, hp, Effect.isPanelCall]

theorem strutFree_updateGeometry (cfg : Build) (env : Displays) (s : StatusBar)
    (hw : cfg.isPlatformWayland = true) (h : strutFree s = true) :
    strutFree (updateGeometry cfg env s) = true := by
  simp only [strutFree, Bool.and_eq_true, Option.isNone_iff_eq_none] at h ⊢
  obtain ⟨hp, hl⟩ := h
  refine ⟨by simp [updateGeometry_strut, hw, hp], ?_⟩
  rw [updateGeometry_log, List.all_append, hl]
  by_cases h1 : s.m_screenRect = env.geometry s.screen <;>
    by_cases h3 : cfg.HAVE_KWAYLAND = true ∧ s.m_plasmaShellSurface.isSome = true <;>
    by_cases h4 : cfg.isPlatformX11 = true <;>
    simp [h1, hw, h3, h4, Effect.isStrut]

theorem panelUnset_initState (launchPad : Bool) (s : StatusBar) (h : panelUnset s = true) :
    panelUnset (initState launchPad s) = true := by
  simp_all [panelUnset, initState, record, List.all_append, Effect.isPanelCall]

theorem strutFree_initState (launchPad : Bool) (s : StatusBar) (h : strutFree s = true) :
    strutFree (initState launchPad s) = true := by
  simp_all [strutFree, initState, record, List.all_append, Effect.isStrut]

theorem panelUnset_setTwentyFourTime (t : Bool) (s : StatusBar) (h : panelUnset s = true) :
    panelUnset (setTwentyFourTime t s) = true := by
  by_cases ht : s.m_twentyFourTime = t <;>
    simp_all [panelUnset, setTwentyFourTime, record, List.all_append, Effect.isPanelCall]

theorem strutFree_setTwentyFourTime (t : Bool) (s : StatusBar) (h : strutFree s = true) :
    strutFree (setTwentyFourTime t s) = true := by
  by_cases ht : s.m_twentyFourTime = t <;>
    simp_all [strutFree, setTwentyFourTime, record, List.all_append, Effect.isStrut]

theorem panelUnset_onPrimaryScreenChanged (cfg : Build) (env : Displays) (scr : ScreenId)
    (s : StatusBar) (h : panelUnset s = true) :
    panelUnset (onPrimaryScreenChanged cfg env scr s) = true := by
  have h1 : panelUnset (setScreen scr (disconnect (.screen s.screen) s)) = true := by
    simp_all [panelUnset, setScreen, disconnect, record, List.all_append, Effect.isPanelCall]
  have h2 := panelUnset_updateGeometry cfg env _ h1
  simpa [panelUnset, onPrimaryScreenChanged, connect] using h2

theorem strutFree_onPrimaryScreenChanged (cfg : Build) (env : Displays) (scr : ScreenId)
    (s : StatusBar) (hw : cfg.isPlatformWayland = true) (h : strutFree s = true) :
    strutFree (onPrimaryScreenChanged cfg env scr s) = true := by
  have h1 : strutFree (setScreen scr (disconnect (.screen s.screen) s)) = true := by
    simp_all [strutFree, setScreen, disconnect, record, List.all_append, Effect.isStrut]
  have h2 := strutFree_updateGeometry cfg env _ hw h1
  simpa [strutFree, onPrimaryScreenChanged, connect] using h2

/-- A callback in which some binding step fails leaves the panel object unset and makes no
call on a panel object. -/
theorem panelUnset_announcedLambda (cfg : Build) (o : BindOutcome) (s : StatusBar)
    (ho : o.ok = false) (h : panelUnset s = true) :
    panelUnset (announcedLambda cfg o s) = true := by
  rcases o with ⟨a, b, c⟩
  cases a <;> cases b <;> cases c <;>
    simp_all [panelUnset, announcedLambda, record, BindOutcome.ok, List.all_append,
      Effect.isPanelCall]

theorem announcedLambda_strut (cfg : Build) (o : BindOutcome) (s : StatusBar) :
    (announcedLambda cfg o s).strut = s.strut := by
  rcases o with ⟨a, b, c⟩
  cases a <;> cases b <;> cases c <;> cases hk : cfg.HAVE_KWAYLAND <;>
    simp [announcedLambda, record, panelCall, updateWaylandPanelSurface, PlasmaShellSurface.fresh,
      hk]

theorem announcedLambda_connections (cfg : Build) (o : BindOutcome) (s : StatusBar) :
    (announcedLambda cfg o s).connections = s.connections := by
  rcases o with ⟨a, b, c⟩
  cases a <;> cases b <;> cases c <;> cases hk : cfg.HAVE_KWAYLAND <;>
    simp [announcedLambda, record, panelCall, updateWaylandPanelSurface, PlasmaShellSurface.fresh,
      hk]

/-- The callback never submits an extended strut, whatever the binding outcome. -/
theorem strutFree_announcedLambda (cfg : Build) (o : BindOutcome) (s : StatusBar)
    (h : strutFree s = true) : strutFree (announcedLambda cfg o s) = true := by
  rcases o with ⟨a, b, c⟩
  cases a <;> cases b <;> cases c <;> cases hk : cfg.HAVE_KWAYLAND <;>
    simp_all [strutFree, announcedLambda, record, panelCall, updateWaylandPanelSurface,
      PlasmaShellSurface.fresh, List.all_append, Effect.isStrut]

theorem panelUnset_runSlot (cfg : Build) (e : Emission) (s : StatusBar) (sl : Slot)
    (hsl : sl = Slot.announcedLambda → e.bind.ok = false) (h : panelUnset s = true) :
    panelUnset (runSlot cfg e s sl) = true := by
  cases sl with
  | updateGeometry => exact panelUnset_updateGeometry cfg _ s h
  | initState => exact panelUnset_initState _ s h
  | onPrimaryScreenChanged => exact panelUnset_onPrimaryScreenChanged cfg _ _ s h
  | announcedLambda => exact panelUnset_announcedLambda cfg _ s (hsl rfl) h

theorem strutFree_runSlot (cfg : Build) (e : Emission) (s : StatusBar) (sl : Slot)
    (hw : cfg.isPlatformWayland = true) (h : strutFree s = true) :
    strutFree (runSlot cfg e s sl) = true := by
  cases sl with
  | updateGeometry => exact strutFree_updateGeometry cfg _ s hw h
  | initState => exact strutFree_initState _ s h
  | onPrimaryScreenChanged => exact strutFree_onPrimaryScreenChanged cfg _ _ s hw h
  | announcedLambda => exact strutFree_announcedLambda cfg _ s h

/-- Running a slot only ever adds connections to `updateGeometry`. -/
theorem runSlot_connections (cfg : Build) (e : Emission) (s : StatusBar) (sl : Slot)
    (c : Connection) (hc : c ∈ (runSlot cfg e s sl).connections) :
    c ∈ s.connections ∨ c.slot = Slot.updateGeometry := by
  cases sl with
  | updateGeometry =>
    left; simpa [runSlot, updateGeometry_connections] using hc
  | initState =>
    left; simpa [runSlot, initState, record] using hc
  | onPrimaryScreenChanged =>
    simp only [runSlot, onPrimaryScreenChanged, connect, List.mem_append, List.mem_singleton,
      updateGeometry_connections, setScreen, record, disconnect, List.mem_filter] at hc
    rcases hc with (hc | hc) | hc
    · left; exact hc.1
    · right; rw [hc]
    · right; rw [hc]
  | announcedLambda =>
    left; simpa [runSlot, announcedLambda_connections] using hc

/-- A property kept by every slot of a list is kept by running the whole list. -/
theorem foldl_runSlot_inv (P : StatusBar → Prop) (cfg : Build) (e : Emission)
    (slots : List Slot)
    (hstep : ∀ s sl, sl ∈ slots → P s → P (runSlot cfg e s sl)) (s : StatusBar) (h : P s) :
    P (slots.foldl (runSlot cfg e) s) := by
  induction slots generalizing s with
  | nil => exact h
  | cons sl rest ih =>
    simp only [List.foldl_cons]
    apply ih
    · intro s1 sl1 hm hp
      exact hstep s1 sl1 (List.mem_cons_of_mem _ hm) hp
    · exact hstep s sl (List.mem_cons_self _ _) h

theorem panelUnset_handle (cfg : Build) (s : StatusBar) (ev : Event)
    (hl : ∀ e, ev = Event.emission e →
      Slot.announcedLambda ∈ connectedSlots s e.sender e.signal → e.bind.ok = false)
    (h : panelUnset s = true) : panelUnset (handle cfg s ev) = true := by
  cases ev with
  | emission e =>
    simp only [handle]
    apply foldl_runSlot_inv (fun st => panelUnset st = true) cfg e _ _ s h
    intro s1 sl hm hp
    apply panelUnset_runSlot cfg e s1 sl _ hp
    intro hsl
    rw [hsl] at hm
    exact hl e rfl hm
  | callSetTwentyFourTime t => exact panelUnset_setTwentyFourTime t s h

theorem strutFree_handle (cfg : Build) (s : StatusBar) (ev : Event)
    (hw : cfg.isPlatformWayland = true) (h : strutFree s = true) :
    strutFree (handle cfg s ev) = true := by
  cases ev with
  | emission e =>
    simp only [handle]
    apply foldl_runSlot_inv (fun st => strutFree st = true) cfg e _ _ s h
    intro s1 sl _ hp
    exact strutFree_runSlot cfg e s1 sl hw hp
  | callSetTwentyFourTime t => exact strutFree_setTwentyFourTime t s h

theorem strutFree_run (cfg : Build) (evs : List Event) (s : StatusBar)
    (hw : cfg.isPlatformWayland = true) (h : strutFree s = true) :
    strutFree (run cfg s evs) = true := by
  induction evs generalizing s with
  | nil => exact h
  | cons ev rest ih =>
    simp only [run, List.foldl_cons]
    exact ih _ (strutFree_handle cfg s ev hw h)

/-- Delivering an event only ever adds connections to `updateGeometry`. -/
theorem handle_connections (cfg : Build) (s : StatusBar) (ev : Event) (c : Connection)
    (hc : c ∈ (handle cfg s ev).connections) :
    c ∈ s.connections ∨ c.slot = Slot.updateGeometry := by
  cases ev with
  | emission e =>
    simp only [handle] at hc
    revert hc
    apply foldl_runSlot_inv
      (fun st => c ∈ st.connections → c ∈ s.connections ∨ c.slot = Slot.updateGeometry) cfg e
    · intro s1 sl _ hp hc
      rcases runSlot_connections cfg e s1 sl c hc with h1 | h1
      · exact hp h1
      · right; exact h1
    · intro hc; left; exact hc
  | callSetTwentyFourTime t =>
    left
    by_cases ht : s.m_twentyFourTime = t <;>
      simpa [handle, setTwentyFourTime, record, ht] using hc

theorem callbackOnlyOnAnnounce_handle (cfg : Build) (s : StatusBar) (ev : Event)
    (h : callbackOnlyOnAnnounce s = true) : callbackOnlyOnAnnounce (handle cfg s ev) = true := by
  simp only [callbackOnlyOnAnnounce, List.all_eq_true, decide_eq_true_eq] at h ⊢
  intro c hc hs
  rcases handle_connections cfg s ev c hc with h1 | h1
  · exact h c h1 hs
  · rw [hs] at h1; cases h1

theorem callbackUnconnected_handle (cfg : Build) (s : StatusBar) (ev : Event)
    (h : callbackUnconnected s = true) : callbackUnconnected (handle cfg s ev) = true := by
  simp only [callbackUnconnected, List.all_eq_true, decide_eq_true_eq] at h ⊢
  intro c hc hs
  rcases handle_connections cfg s ev c hc with h1 | h1
  · exact h c h1 hs
  · rw [hs] at h1; cases h1

/-- A slot found among the connected ones comes from a connection of the table. -/
theorem mem_connectedSlots (s : StatusBar) (sender : QObjectRef) (sig : Signal) (sl : Slot)
    (h : sl ∈ connectedSlots s sender sig) :
    ∃ c ∈ s.connections, c.slot = sl ∧ c.signal = sig := by
  simp only [connectedSlots, List.mem_map, List.mem_filter, decide_eq_true_eq] at h
  obtain ⟨c, ⟨hc, _, hsig, _⟩, hsl⟩ := h
  exact ⟨c, hc, hsl, hsig⟩

/-! ## The constructed controller -/

theorem panelUnset_record (e : Effect) (s : StatusBar) :
    panelUnset (record e s) = (panelUnset s && !e.isPanelCall) := by
  simp [panelUnset, record, List.all_append, Bool.and_assoc]

theorem strutFree_record (e : Effect) (s : StatusBar) :
    strutFree (record e s) = (strutFree s && !e.isStrut) := by
  simp [strutFree, record, List.all_append, Bool.and_assoc]

theorem panelUnset_connect (a : QObjectRef) (sig : Signal) (sl : Slot) (s : StatusBar) :
    panelUnset (connect a sig sl s) = panelUnset s := rfl

theorem strutFree_connect (a : QObjectRef) (sig : Signal) (sl : Slot) (s : StatusBar) :
    strutFree (connect a sig sl s) = strutFree s := rfl

theorem construct_panelUnset (cfg : Build) (env : Displays) (twentyFour : Option Bool)
    (primary : ScreenId) (connection launchPad : Bool) :
    panelUnset (construct cfg env twentyFour primary connection launchPad) = true := by
  simp only [construct, panelUnset_connect, initState, panelUnset_record, Effect.isPanelCall,
    Bool.not_false, Bool.and_true]
  apply panelUnset_updateGeometry
  rcases cfg with ⟨hk, pl⟩
  cases hk <;> cases pl <;> cases connection <;>
    simp [setupWaylandPanelSurface, setScreen, record, connect,
      Build.isPlatformWayland, Effect.isPanelCall, panelUnset]

theorem construct_strutFree (cfg : Build) (env : Displays) (twentyFour : Option Bool)
    (primary : ScreenId) (connection launchPad : Bool) (hw : cfg.isPlatformWayland = true) :
    strutFree (construct cfg env twentyFour primary connection launchPad) = true := by
  simp only [construct, strutFree_connect, initState, strutFree_record, Effect.isStrut,
    Bool.not_false, Bool.and_true]
  apply strutFree_updateGeometry _ _ _ hw
  rcases cfg with ⟨hk, pl⟩
  cases hk <;> cases pl <;> cases connection <;>
    simp [setupWaylandPanelSurface, setScreen, record, connect,
      Build.isPlatformWayland, Effect.isStrut, strutFree]

/-- The connection table right after construction. -/
theorem construct_connections (cfg : Build) (env : Displays) (twentyFour : Option Bool)
    (primary : ScreenId) (connection launchPad : Bool) :
    (construct cfg env twentyFour primary connection launchPad).connections
      = (if cfg.HAVE_KWAYLAND = true ∧ cfg.isPlatformWayland = true ∧ connection = true then
          [⟨.registry, .plasmaShellAnnounced, .statusBar, .announcedLambda⟩] else []) ++
        [⟨.activity, .launchPadChanged, .statusBar, .initState⟩,
         ⟨.screen primary, .virtualGeometryChanged, .statusBar, .updateGeometry⟩,
         ⟨.screen primary, .geometryChanged, .statusBar, .updateGeometry⟩,
         ⟨.guiApp, .primaryScreenChanged, .statusBar, .onPrimaryScreenChanged⟩] := by
  rcases cfg with ⟨hk, pl⟩
  cases hk <;> cases pl <;> cases connection <;>
    simp [construct, connect, initState, record, updateGeometry_connections,
      updateGeometry_screen, setupWaylandPanelSurface, setScreen, Build.isPlatformWayland]

theorem construct_callbackOnlyOnAnnounce (cfg : Build) (env : Displays)
    (twentyFour : Option Bool) (primary : ScreenId) (connection launchPad : Bool) :
    callbackOnlyOnAnnounce (construct cfg env twentyFour primary connection launchPad)
      = true := by
  rw [callbackOnlyOnAnnounce, construct_connections]
  by_cases h : cfg.HAVE_KWAYLAND = true ∧ cfg.isPlatformWayland = true ∧ connection = true <;>
    simp [h]

theorem construct_callbackUnconnected (cfg : Build) (env : Displays)
    (twentyFour : Option Bool) (primary : ScreenId) (launchPad : Bool) :
    callbackUnconnected (construct cfg env twentyFour primary false launchPad) = true := by
  rw [callbackUnconnected, construct_connections]
  simp

/-! ## Runs of the event loop -/

theorem panelUnset_run_of_never (cfg : Build) (evs : List Event) (s : StatusBar)
    (hn : callbackNeverRuns cfg s evs = true) (h : panelUnset s = true) :
    panelUnset (run cfg s evs) = true := by
  induction evs generalizing s with
  | nil => exact h
  | cons ev rest ih =>
    simp only [callbackNeverRuns, Bool.and_eq_true, Bool.not_eq_true_eq_eq_false] at hn
    simp only [run, List.foldl_cons]
    apply ih _ hn.2
    apply panelUnset_handle cfg s ev _ h
    intro e he hm
    rw [he] at hn
    simp [callbackRuns, hm] at hn

theorem panelUnset_run_of_unconnected (cfg : Build) (evs : List Event) (s : StatusBar)
    (hu : callbackUnconnected s = true) (h : panelUnset s = true) :
    panelUnset (run cfg s evs) = true := by
  induction evs generalizing s with
  | nil => exact h
  | cons ev rest ih =>
    simp only [run, List.foldl_cons]
    apply ih _ (callbackUnconnected_handle cfg s ev hu)
    apply panelUnset_handle cfg s ev _ h
    intro e _ hm
    obtain ⟨c, hc, hsl, _⟩ := mem_connectedSlots s _ _ _ hm
    simp only [callbackUnconnected, List.all_eq_true, decide_eq_true_eq] at hu
    exact absurd hsl (hu c hc)

theorem panelUnset_run_of_failures (cfg : Build) (evs : List Event) (s : StatusBar)
    (ha : callbackOnlyOnAnnounce s = true)
    (hf : ∀ ev ∈ evs, ev.announcesWithSuccess = false) (h : panelUnset s = true) :
    panelUnset (run cfg s evs) = true := by
  induction evs generalizing s with
  | nil => exact h
  | cons ev rest ih =>
    simp only [run, List.foldl_cons]
    apply ih _ (callbackOnlyOnAnnounce_handle cfg s ev ha)
      (fun ev1 h1 => hf ev1 (List.mem_cons_of_mem _ h1))
    apply panelUnset_handle cfg s ev _ h
    intro e he hm
    obtain ⟨c, hc, hsl, hsig⟩ := mem_connectedSlots s _ _ _ hm
    simp only [callbackOnlyOnAnnounce, List.all_eq_true, decide_eq_true_eq] at ha
    have h1 := ha c hc hsl
    have h2 := hf ev (List.mem_cons_self _ _)
    rw [he] at h2
    simpa [Event.announcesWithSuccess, ← hsig, h1] using h2

end StatusBar

/-! ## Claims -/

open StatusBar

/-- C10: after `setTwentyFourTime t` the getter returns `t`; `twentyFourTimeChanged` is
emitted exactly once when the previous value differed and not at all when it was equal; a
second call with the same `t` changes nothing and emits nothing; every other component of
the controller state is left as it was. -/
theorem C10_setTwentyFourTime (s : StatusBar) (t : Bool) :
    twentyFourTime (setTwentyFourTime t s) = t ∧
    effectsSince s (setTwentyFourTime t s)
      = (if s.m_twentyFourTime = t then [] else [Effect.emit .twentyFourTimeChanged]) ∧
    setTwentyFourTime t (setTwentyFourTime t s) = setTwentyFourTime t s ∧
    (setTwentyFourTime t s).m_screenRect = s.m_screenRect ∧
    (setTwentyFourTime t s).m_plasmaShellSurface = s.m_plasmaShellSurface ∧
    (setTwentyFourTime t s).screen = s.screen ∧
    (setTwentyFourTime t s).geometry = s.geometry ∧
    (setTwentyFourTime t s).strut = s.strut ∧
    (setTwentyFourTime t s).blurBehind = s.blurBehind ∧
    (setTwentyFourTime t s).connections = s.connections := by
  by_cases h : s.m_twentyFourTime = t
  · simp [setTwentyFourTime, twentyFourTime, effectsSince, h]
  · simp [setTwentyFourTime, twentyFourTime, effectsSince, record, h]

/-- C5: `initState` issues exactly one call, `KWindowSystem::setState`, asking for
`KeepBelow` when the launchpad is open and for `KeepAbove` otherwise; the two values of the
launchpad flag give two different requests, and running `initState` again after the flag
has toggled asks for the other state; `initState` changes nothing of the controller state
(stored screen rectangle, surface geometry, strut, time-format flag, panel object,
connections) apart from the log of calls. -/
theorem C5_initState (s : StatusBar) (launchPad : Bool) :
    effectsSince s (initState launchPad s)
      = [Effect.setState (if launchPad then NETState.KeepBelow else NETState.KeepAbove)] ∧
    effectsSince s (initState true s) = [Effect.setState NETState.KeepBelow] ∧
    effectsSince s (initState false s) = [Effect.setState NETState.KeepAbove] ∧
    effectsSince s (initState launchPad s) ≠ effectsSince s (initState (!launchPad) s) ∧
    effectsSince (initState launchPad s) (initState (!launchPad) (initState launchPad s))
      = [Effect.setState (if launchPad then NETState.KeepAbove else NETState.KeepBelow)] ∧
    initState launchPad s = { s with log := (initState launchPad s).log } := by
  cases launchPad <;> simp [initState, effectsSince, record]

/-- C1: when the bound display has geometry `(x, y, w, h)`, `updateGeometry` makes exactly
one `setGeometry` call, with the rectangle `(x, y, w, 25)`, and the surface has that
rectangle afterwards: its top-left is `(x, y)`, its width `w`, its height 25 whatever `h`. -/
theorem C1_updateGeometry_rect (cfg : Build) (env : Displays) (s : StatusBar)
    (x y w h : Int) (hG : env.geometry s.screen = QRect.fromXYWH x y w h) :
    (effectsSince s (updateGeometry cfg env s)).filter Effect.isSetGeometry
      = [Effect.setGeometry (QRect.fromXYWH x y w 25)] ∧
    (updateGeometry cfg env s).geometry = QRect.fromXYWH x y w 25 ∧
    (updateGeometry cfg env s).geometry.topLeft = ⟨x, y⟩ ∧
    (updateGeometry cfg env s).geometry.width = w ∧
    (updateGeometry cfg env s).geometry.height = 25 := by
  have hx : (QRect.fromXYWH x y w h).x = x := rfl
  have hy : (QRect.fromXYWH x y w h).y = y := rfl
  have hw : (QRect.fromXYWH x y w h).width = w := by
    simp only [QRect.fromXYWH, QRect.width]; omega
  have hgeo : (updateGeometry cfg env s).geometry = QRect.fromXYWH x y w 25 := by
    rw [updateGeometry_geometry, hG, hx, hy, hw]
  refine ⟨?_, hgeo, ?_, ?_, ?_⟩
  · rw [effectsSince_append _ _ _ (updateGeometry_log cfg env s), hG, hx, hy, hw]
    by_cases h1 : s.m_screenRect = QRect.fromXYWH x y w h <;>
      by_cases h2 : cfg.isPlatformWayland = true <;>
      by_cases h3 : cfg.HAVE_KWAYLAND = true ∧ s.m_plasmaShellSurface.isSome = true <;>
      by_cases h4 : cfg.isPlatformX11 = true <;>
      simp [h1, h2, h3, h4, Effect.isSetGeometry]
  · rw [hgeo]; rfl
  · rw [hgeo]; simp only [QRect.fromXYWH, QRect.width]; omega
  · rw [hgeo]; simp only [QRect.fromXYWH, QRect.height]; omega

/-- C1, worked example: display geometry `(0,0,1920,1080)` gives the rectangle
`(0,0,1920,25)`. -/
theorem C1_updateGeometry_rect_witness :
    exampleDisplays.geometry exampleBar.screen = QRect.fromXYWH 0 0 1920 1080 ∧
    ((effectsSince exampleBar (updateGeometry exampleX11 exampleDisplays exampleBar)).filter
        Effect.isSetGeometry
      = [Effect.setGeometry (QRect.fromXYWH 0 0 1920 25)] ∧
    (updateGeometry exampleX11 exampleDisplays exampleBar).geometry
      = QRect.fromXYWH 0 0 1920 25 ∧
    (updateGeometry exampleX11 exampleDisplays exampleBar).geometry.topLeft = ⟨0, 0⟩ ∧
    (updateGeometry exampleX11 exampleDisplays exampleBar).geometry.width = 1920 ∧
    (updateGeometry exampleX11 exampleDisplays exampleBar).geometry.height = 25) :=
  ⟨by decide, C1_updateGeometry_rect exampleX11 exampleDisplays exampleBar 0 0 1920 1080
    (by decide)⟩

/-- C3: `updateGeometry` emits `screenRectChanged` if and only if the stored screen
rectangle differs from the display geometry `G`, and then exactly once; afterwards
`screenRect()` returns `G`; a call made right after, with the same `G`, emits none. -/
theorem C3_screenRectChanged_iff (cfg : Build) (env : Displays) (s : StatusBar) :
    (Effect.emit .screenRectChanged ∈ effectsSince s (updateGeometry cfg env s)
      ↔ screenRect s ≠ env.geometry s.screen) ∧
    (effectsSince s (updateGeometry cfg env s)).count (Effect.emit .screenRectChanged) ≤ 1 ∧
    screenRect (updateGeometry cfg env s) = env.geometry s.screen ∧
    Effect.emit .screenRectChanged ∉
      effectsSince (updateGeometry cfg env s)
        (updateGeometry cfg env (updateGeometry cfg env s)) := by
  refine ⟨?_, ?_, updateGeometry_screenRect cfg env s, ?_⟩
  · rw [effectsSince_append _ _ _ (updateGeometry_log cfg env s)]
    by_cases h1 : s.m_screenRect = env.geometry s.screen <;>
      by_cases h2 : cfg.isPlatformWayland = true <;>
      by_cases h3 : cfg.HAVE_KWAYLAND = true ∧ s.m_plasmaShellSurface.isSome = true <;>
      by_cases h4 : cfg.isPlatformX11 = true <;>
      simp [h1, h2, h3, h4, screenRect]
  · rw [effectsSince_append _ _ _ (updateGeometry_log cfg env s)]
    by_cases h1 : s.m_screenRect = env.geometry s.screen <;>
      by_cases h2 : cfg.isPlatformWayland = true <;>
      by_cases h3 : cfg.HAVE_KWAYLAND = true ∧ s.m_plasmaShellSurface.isSome = true <;>
      by_cases h4 : cfg.isPlatformX11 = true <;>
      simp [h1, h2, h3, h4, List.count_cons]
  · rw [effectsSince_append _ _ _ (updateGeometry_log cfg env (updateGeometry cfg env s))]
    have h1 : (updateGeometry cfg env s).m_screenRect
        = env.geometry (updateGeometry cfg env s).screen := by
      rw [updateGeometry_screenRect, updateGeometry_screen]
    by_cases h2 : cfg.isPlatformWayland = true <;>
      by_cases h3 : cfg.HAVE_KWAYLAND = true ∧
        (updateGeometry cfg env s).m_plasmaShellSurface.isSome = true <;>
      by_cases h4 : cfg.isPlatformX11 = true <;>
      simp [h1, h2, h3, h4]

/-- C8: on a Wayland session built with KWayland, when a panel object exists and the bound
display has geometry `(x, y, w, h)`, `updateGeometry` sets the surface geometry to
`(x, y, w, 25)` and then calls `setPanelBehavior(WindowsGoBelow)` and `setPosition((x, y))`
on the panel object, in this order and with no other panel call; the panel object then
holds that behavior and that position. -/
theorem C8_updateGeometry_repositions_panel (cfg : Build) (env : Displays) (s : StatusBar)
    (p : PlasmaShellSurface) (x y w h : Int)
    (hw : cfg.isPlatformWayland = true) (hk : cfg.HAVE_KWAYLAND = true)
    (hp : s.m_plasmaShellSurface = some p)
    (hG : env.geometry s.screen = QRect.fromXYWH x y w h) :
    effectsSince s (updateGeometry cfg env s)
      = (if s.m_screenRect = QRect.fromXYWH x y w h then []
         else [Effect.emit .screenRectChanged]) ++
        [Effect.setGeometry (QRect.fromXYWH x y w 25),
         Effect.setPanelBehavior .WindowsGoBelow,
         Effect.setPosition ⟨x, y⟩] ∧
    (effectsSince s (updateGeometry cfg env s)).filter Effect.isPanelCall
      = [Effect.setPanelBehavior .WindowsGoBelow, Effect.setPosition ⟨x, y⟩] ∧
    (updateGeometry cfg env s).geometry.topLeft = ⟨x, y⟩ ∧
    (updateGeometry cfg env s).m_plasmaShellSurface
      = some { p with panelBehavior := some .WindowsGoBelow, position := some ⟨x, y⟩ } := by
  have hx : (QRect.fromXYWH x y w h).x = x := rfl
  have hy : (QRect.fromXYWH x y w h).y = y := rfl
  have hwd : (QRect.fromXYWH x y w h).width = w := by
    simp only [QRect.fromXYWH, QRect.width]; omega
  have hX : cfg.isPlatformX11 = false := by
    simp only [Build.isPlatformWayland, Build.isPlatformX11, decide_eq_true_eq,
      decide_eq_false_iff_not] at hw ⊢
    rw [hw]; decide
  have hlog := effectsSince_append _ _ _ (updateGeometry_log cfg env s)
  rw [hG, hx, hy, hwd] at hlog
  refine ⟨?_, ?_, ?_, ?_⟩
  · rw [hlog]
    by_cases h1 : s.m_screenRect = QRect.fromXYWH x y w h <;> simp [h1, hw, hk, hp, hX]
  · rw [hlog]
    by_cases h1 : s.m_screenRect = QRect.fromXYWH x y w h <;>
      simp [h1, hw, hk, hp, hX, Effect.isPanelCall]
  · rw [updateGeometry_geometry, hG, hx, hy, hwd]; rfl
  · rw [updateGeometry_panel, hG, hx, hy]
    simp [hw, hk, hp]

/-- C8, worked example: the registered panel of the compositor example session, with the
display moved to `(100, 50)`. -/
theorem C8_updateGeometry_repositions_panel_witness :
    exampleWayland.isPlatformWayland = true ∧ exampleWayland.HAVE_KWAYLAND = true ∧
    examplePanelBar.m_plasmaShellSurface
      = some ⟨some .Panel, some .WindowsGoBelow, some true, some true, some false,
          some ⟨0, 0⟩⟩ ∧
    (updateGeometry exampleWayland
        (Displays.const (QRect.fromXYWH 100 50 1920 1080) ⟨2020, 1130⟩)
        examplePanelBar).m_plasmaShellSurface
      = some ⟨some .Panel, some .WindowsGoBelow, some true, some true, some false,
          some ⟨100, 50⟩⟩ :=
  ⟨by decide, by decide, by decide,
    (C8_updateGeometry_repositions_panel exampleWayland
      (Displays.const (QRect.fromXYWH 100 50 1920 1080) ⟨2020, 1130⟩) examplePanelBar
      ⟨some .Panel, some .WindowsGoBelow, some true, some true, some false, some ⟨0, 0⟩⟩
      100 50 1920 1080 (by decide) (by decide) (by decide) (by decide)).2.2.2⟩

/-- C9: running `updateGeometry` a second time with the same display geometry leaves the
stored screen rectangle, the surface geometry, the window strut and the panel object (with
its position) as the first run left them; in fact the whole state is the same apart from
the log of calls. The second run emits no change signal and submits the same strut and the
same panel position as the first: the single reservation is overwritten with an equal one. -/
theorem C9_updateGeometry_idempotent (cfg : Build) (env : Displays) (s : StatusBar) :
    (updateGeometry cfg env (updateGeometry cfg env s)).m_screenRect
      = (updateGeometry cfg env s).m_screenRect ∧
    (updateGeometry cfg env (updateGeometry cfg env s)).geometry
      = (updateGeometry cfg env s).geometry ∧
    (updateGeometry cfg env (updateGeometry cfg env s)).strut
      = (updateGeometry cfg env s).strut ∧
    (updateGeometry cfg env (updateGeometry cfg env s)).m_plasmaShellSurface
      = (updateGeometry cfg env s).m_plasmaShellSurface ∧
    { updateGeometry cfg env (updateGeometry cfg env s) with
        log := (updateGeometry cfg env s).log } = updateGeometry cfg env s ∧
    effectsSince (updateGeometry cfg env s) (updateGeometry cfg env (updateGeometry cfg env s))
      = (effectsSince s (updateGeometry cfg env s)).filter
          (fun e => decide (e ≠ Effect.emit .screenRectChanged)) := by
  have hscr := updateGeometry_screen cfg env s
  have e1 : (updateGeometry cfg env (updateGeometry cfg env s)).m_screenRect
      = (updateGeometry cfg env s).m_screenRect := by
    rw [updateGeometry_screenRect, updateGeometry_screenRect, hscr]
  have e2 : (updateGeometry cfg env (updateGeometry cfg env s)).geometry
      = (updateGeometry cfg env s).geometry := by
    rw [updateGeometry_geometry, updateGeometry_geometry, hscr]
  have e3 : (updateGeometry cfg env (updateGeometry cfg env s)).strut
      = (updateGeometry cfg env s).strut := by
    rw [updateGeometry_strut, updateGeometry_strut cfg env s, hscr]
    by_cases h : cfg.isPlatformWayland = true <;> simp [h]
  have e4 : (updateGeometry cfg env (updateGeometry cfg env s)).m_plasmaShellSurface
      = (updateGeometry cfg env s).m_plasmaShellSurface := by
    rw [updateGeometry_panel, updateGeometry_panel cfg env s, hscr]
    by_cases h : cfg.isPlatformWayland = true ∧ cfg.HAVE_KWAYLAND = true
    · cases hp : s.m_plasmaShellSurface <;> simp [h]
    · simp [h]
  refine ⟨e1, e2, e3, e4, ?_, ?_⟩
  · apply ext_fields
    · exact e1
    · simp only [updateGeometry_twentyFourTime]
    · exact e4
    · simp only [updateGeometry_screen]
    · exact e2
    · exact e3
    · simp only [updateGeometry_blurBehind]
      by_cases h : cfg.isPlatformX11 = true <;> simp [h]
    · simp only [updateGeometry_connections]
    · rfl
  · rw [effectsSince_append _ _ _ (updateGeometry_log cfg env (updateGeometry cfg env s)),
      effectsSince_append _ _ _ (updateGeometry_log cfg env s), hscr,
      updateGeometry_screenRect, updateGeometry_panel]
    by_cases h1 : s.m_screenRect = env.geometry s.screen <;>
      by_cases h2 : cfg.isPlatformWayland = true <;>
      by_cases h3 : cfg.HAVE_KWAYLAND = true <;>
      by_cases h4 : cfg.isPlatformX11 = true <;>
      cases hp : s.m_plasmaShellSurface <;>
      simp [h1, h2, h3, h4, hp]

/-- C6: on a Wayland session, over every event sequence in which the announcement callback
never runs, the panel object is still null (as the constructor left it), no call on a panel
object has been made at any point, and from the state reached `updateWaylandPanelSurface`
and `updateViewStruts` return the state unchanged, while `updateGeometry` issues no
set-panel-behavior and no set-position call. -/
theorem C6_panel_stays_unset (cfg : Build) (env : Displays) (twentyFour : Option Bool)
    (primary : ScreenId) (connection launchPad : Bool) (evs : List Event)
    (hw : cfg.isPlatformWayland = true)
    (hn : callbackNeverRuns cfg
      (construct cfg env twentyFour primary connection launchPad) evs = true) :
    (construct cfg env twentyFour primary connection launchPad).m_plasmaShellSurface = none ∧
    (run cfg (construct cfg env twentyFour primary connection launchPad) evs).m_plasmaShellSurface
      = none ∧
    (∀ e ∈ (run cfg (construct cfg env twentyFour primary connection launchPad) evs).log,
      e.isPanelCall = false) ∧
    updateWaylandPanelSurface cfg
        (run cfg (construct cfg env twentyFour primary connection launchPad) evs)
      = run cfg (construct cfg env twentyFour primary connection launchPad) evs ∧
    (∀ env1, updateViewStruts cfg env1
        (run cfg (construct cfg env twentyFour primary connection launchPad) evs)
      = run cfg (construct cfg env twentyFour primary connection launchPad) evs) ∧
    (∀ env1, (effectsSince
        (run cfg (construct cfg env twentyFour primary connection launchPad) evs)
        (updateGeometry cfg env1
          (run cfg (construct cfg env twentyFour primary connection launchPad) evs))).filter
        Effect.isPanelCall = []) := by
  have h0 := construct_panelUnset cfg env twentyFour primary connection launchPad
  have h1 := panelUnset_run_of_never cfg evs _ hn h0
  rw [panelUnset_iff] at h0 h1
  obtain ⟨hp, hl⟩ := h1
  have hu : updateWaylandPanelSurface cfg
        (run cfg (construct cfg env twentyFour primary connection launchPad) evs)
      = run cfg (construct cfg env twentyFour primary connection launchPad) evs := by
    unfold updateWaylandPanelSurface
    rw [hp]
    cases cfg.HAVE_KWAYLAND <;> rfl
  refine ⟨h0.1, hp, hl, hu, ?_, ?_⟩
  · intro env1
    unfold updateViewStruts
    rw [hw, hu]
    cases cfg.HAVE_KWAYLAND <;> rfl
  · intro env1
    rw [effectsSince_append _ _ _ (updateGeometry_log cfg env1 _), hp]
    have hX : cfg.isPlatformX11 = false := by
      simp only [Build.isPlatformWayland, Build.isPlatformX11, decide_eq_true_eq,
        decide_eq_false_iff_not] at hw ⊢
      rw [hw]; decide
    by_cases h1 : (run cfg (construct cfg env twentyFour primary connection launchPad)
        evs).m_screenRect = env1.geometry
          (run cfg (construct cfg env twentyFour primary connection launchPad) evs).screen <;>
      simp [h1, hw, hX, Effect.isPanelCall]

/-- C6, worked example: the compositor example session with a connection but no
announcement, through a geometry change, a primary-display change, a launchpad change and
a time-format change. -/
theorem C6_panel_stays_unset_witness :
    exampleWayland.isPlatformWayland = true ∧
    callbackNeverRuns exampleWayland
      (construct exampleWayland exampleDisplays none 0 true false) exampleQuietEvents = true ∧
    (run exampleWayland (construct exampleWayland exampleDisplays none 0 true false)
      exampleQuietEvents).m_plasmaShellSurface = none :=
  ⟨by decide, by decide,
    (C6_panel_stays_unset exampleWayland exampleDisplays none 0 true false exampleQuietEvents
      (by decide) (by decide)).2.1⟩

/-- C7: on a Wayland session, when no connection handle is available, or when every shell
announcement fails at some binding step (shell object, protocol surface or panel object),
then after any sequence of events the panel object is unset, no role, behavior,
skip-taskbar, skip-switcher, takes-focus or position call has been made, no extended strut
has been submitted and the window has no strut. A failing callback does nothing but log
one warning, and so does the setup without a connection. -/
theorem C7_failed_registration_no_reservation (cfg : Build) (env : Displays)
    (twentyFour : Option Bool) (primary : ScreenId) (connection launchPad : Bool)
    (evs : List Event) (hw : cfg.isPlatformWayland = true)
    (hf : connection = false ∨ ∀ ev ∈ evs, ev.announcesWithSuccess = false) :
    (run cfg (construct cfg env twentyFour primary connection launchPad) evs).m_plasmaShellSurface
      = none ∧
    (∀ e ∈ (run cfg (construct cfg env twentyFour primary connection launchPad) evs).log,
      e.isPanelCall = false) ∧
    (∀ e ∈ (run cfg (construct cfg env twentyFour primary connection launchPad) evs).log,
      e.isStrut = false) ∧
    (run cfg (construct cfg env twentyFour primary connection launchPad) evs).strut = none ∧
    (∀ (s : StatusBar) (o : BindOutcome), o.ok = false → s.m_plasmaShellSurface = none →
      ∃ w, announcedLambda cfg o s = record (Effect.warning w) s) ∧
    (cfg.HAVE_KWAYLAND = true → ∀ s : StatusBar,
      setupWaylandPanelSurface cfg false s = record (Effect.warning .noConnection) s) := by
  have h0 := construct_panelUnset cfg env twentyFour primary connection launchPad
  have hs := strutFree_run cfg evs _ hw
    (construct_strutFree cfg env twentyFour primary connection launchPad hw)
  have hp : panelUnset
      (run cfg (construct cfg env twentyFour primary connection launchPad) evs) = true := by
    rcases hf with hf | hf
    · subst hf
      exact panelUnset_run_of_unconnected cfg evs _
        (construct_callbackUnconnected cfg env twentyFour primary launchPad) h0
    · exact panelUnset_run_of_failures cfg evs _
        (construct_callbackOnlyOnAnnounce cfg env twentyFour primary connection launchPad) hf h0
  rw [panelUnset_iff] at hp
  rw [strutFree_iff] at hs
  refine ⟨hp.1, hp.2, hs.2, hs.1, ?_, ?_⟩
  · intro s o ho hnone
    rcases o with ⟨a, b, c⟩
    cases a
    · exact ⟨.bindPlasmaShellFailed, by simp [announcedLambda]⟩
    · cases b
      · exact ⟨.noWaylandSurface, by simp [announcedLambda]⟩
      · cases c
        · refine ⟨.createShellSurfaceFailed, ?_⟩
          have : ({ s with m_plasmaShellSurface := none } : StatusBar) = s := by
            cases s; simp_all
          simp [announcedLambda, this]
        · simp [BindOutcome.ok] at ho
  · intro hk s
    simp [setupWaylandPanelSurface, hk, hw]

/-- C7, worked example: the compositor example session with a connection, where the shell is
announced twice and a binding step fails each time. -/
theorem C7_failed_registration_no_reservation_witness :
    exampleWayland.isPlatformWayland = true ∧
    (∀ ev ∈ exampleFailingEvents, ev.announcesWithSuccess = false) ∧
    (run exampleWayland (construct exampleWayland exampleDisplays none 0 true false)
      exampleFailingEvents).m_plasmaShellSurface = none ∧
    (run exampleWayland (construct exampleWayland exampleDisplays none 0 true false)
      exampleFailingEvents).strut = none :=
  ⟨by decide, by decide,
    (C7_failed_registration_no_reservation exampleWayland exampleDisplays none 0 true false
      exampleFailingEvents (by decide) (Or.inr (by decide))).1,
    (C7_failed_registration_no_reservation exampleWayland exampleDisplays none 0 true false
      exampleFailingEvents (by decide) (Or.inr (by decide))).2.2.2.1⟩

/-- C4, the code evaluated: `disconnect(this->screen())` removes only connections whose
sender is the controller, so after `onPrimaryScreenChanged(B)` both change signals of the old
display `A` still reach `updateGeometry` (for every session, layout and pair of displays).
On the example session, after the change from display 0 to display 1 the connections of
display 0 are still there next to the new ones of display 1, the geometry has been
recomputed against display 1, and after the change back to display 0 each signal of display
0 is connected twice, so one `geometryChanged` of display 0 runs `updateGeometry` twice. -/
theorem C4_old_display_stays_connected (cfg : Build) (env : Displays)
    (twentyFour : Option Bool) (A B : ScreenId) (connection launchPad : Bool) :
    Slot.updateGeometry ∈ connectedSlots
      (onPrimaryScreenChanged cfg env B (construct cfg env twentyFour A connection launchPad))
      (.screen A) .geometryChanged ∧
    Slot.updateGeometry ∈ connectedSlots
      (onPrimaryScreenChanged cfg env B (construct cfg env twentyFour A connection launchPad))
      (.screen A) .virtualGeometryChanged ∧
    (onPrimaryScreenChanged cfg env B
      (construct cfg env twentyFour A connection launchPad)).m_screenRect = env.geometry B ∧
    connectedSlots exampleBar (.screen 0) .geometryChanged = [.updateGeometry] ∧
    connectedSlots (onPrimaryScreenChanged exampleX11 exampleDisplays 1 exampleBar)
      (.screen 0) .geometryChanged = [.updateGeometry] ∧
    connectedSlots (onPrimaryScreenChanged exampleX11 exampleDisplays 1 exampleBar)
      (.screen 0) .virtualGeometryChanged = [.updateGeometry] ∧
    connectedSlots (onPrimaryScreenChanged exampleX11 exampleDisplays 1 exampleBar)
      (.screen 1) .geometryChanged = [.updateGeometry] ∧
    connectedSlots
      (onPrimaryScreenChanged exampleX11 exampleDisplays 0
        (onPrimaryScreenChanged exampleX11 exampleDisplays 1 exampleBar))
      (.screen 0) .geometryChanged = [.updateGeometry, .updateGeometry] ∧
    ((effectsSince
        (onPrimaryScreenChanged exampleX11 exampleDisplays 0
          (onPrimaryScreenChanged exampleX11 exampleDisplays 1 exampleBar))
        (handle exampleX11
          (onPrimaryScreenChanged exampleX11 exampleDisplays 0
            (onPrimaryScreenChanged exampleX11 exampleDisplays 1 exampleBar))
          (exampleEmission (.screen 0) .geometryChanged 0 ⟨true, true, true⟩))).filter
        Effect.isSetGeometry).length = 2 := by
  refine ⟨?_, ?_, ?_, by decide, by decide, by decide, by decide, by decide, by decide⟩
  · simp [connectedSlots, onPrimaryScreenChanged, connect, disconnect, setScreen, record,
      updateGeometry_connections, construct_connections]
  · simp [connectedSlots, onPrimaryScreenChanged, connect, disconnect, setScreen, record,
      updateGeometry_connections, construct_connections]
  · simp [onPrimaryScreenChanged, connect, updateGeometry_screenRect, setScreen, record,
      disconnect]
